import Mathlib

set_option maxRecDepth 100000

/-!
Shallow embedding of the SteamTasteMatch browser extension's background
pipeline (background.js): the HTML review extractor, the paginated profile
fetcher, reviewer discovery, the bulk profile collector, the scoring engine
and the analysis orchestrator.  Strings are modelled as `List Char`, network
and storage effects as explicit oracles and state, the cooperative
cancellation flag as a threshold `cancelFrom` on a counter of poll points
(the source polls the mutable `shouldCancel` flag at well-defined points;
each poll consumes one counter tick, and the flag reads `true` from tick
`cancelFrom` onwards, matching the flag's set-once monotonicity within a
run).  Timing delays (`delay(...)`) are no-ops for the semantics and are
dropped.  `chrome.storage` log/progress writes cannot affect control flow
(`logProgress` catches its own failures in the source) and are dropped.
-/

/-- A review extracted from a profile page, `reviews.push(appId, isPositive)`
in `parseReviewsFromHTML`.  `appId` is kept as the matched digit string, as
in the source (JS compares app ids with `===` on strings). -/
structure Review where
  appId : String
  isPositive : Bool
deriving DecidableEq

/-! ### HTML Review Extractor (`parseReviewsFromHTML`)

The source locates review vote markers with the JS regex
`<img[^>]+src="([^"]*icon_thumbs(Up|Down)[^"]*)"` (flags `gi`) via
`matchAll`, and for each marker scans the preceding 2000 characters with
`href="[^"]*\/app\/(\d+)` (flags `gi`) taking the last match.  The matchers
below implement exactly those two concrete regexes: leftmost scanning,
greedy quantifiers with backtracking (realised by trying the longest
candidate run first and descending), case-insensitive literals (flag `i`),
and capture of the actually-matched alternation text. -/

/-- Case-insensitive prefix test: does `cs` start with `ps` up to
`Char.toLower` (JS regex flag `i`; all pattern literals are ASCII)? -/
def startsWithCI : List Char → List Char → Bool
  | [], _ => true
  | _ :: _, [] => false
  | p :: ps, c :: cs => (p.toLower == c.toLower) && startsWithCI ps cs

/-- Match the trailing `[^"]*"` of the img regex: the greedy run of
non-quote characters must be followed by a closing quote.  Returns the
number of characters consumed (run plus the quote). -/
def closeQuoteLen (v : List Char) : Option Nat :=
  let q := (v.takeWhile (fun ch => ch != '"')).length
  if q < v.length then some (q + 1) else none

/-- Try `icon_thumbs(Up|Down)[^"]*"` at offset `m` of `s` (the part of the
subject after `src="`).  The alternation tries `Up` before `Down`, as the
regex does, and captures the characters actually matched (the source later
tests the capture with the case-sensitive `thumbType === 'Up'`). -/
def matchThumbTail (s : List Char) (m : Nat) : Option (List Char × Nat) :=
  let t := s.drop m
  if startsWithCI (("icon_thumbs").toList) t then
    let u := t.drop 11
    if startsWithCI (("up").toList) u then
      match closeQuoteLen (u.drop 2) with
      | some q => some (u.take 2, m + 13 + q)
      | none => none
    else if startsWithCI (("down").toList) u then
      match closeQuoteLen (u.drop 4) with
      | some q => some (u.take 4, m + 15 + q)
      | none => none
    else none
  else none

/-- Backtracking for the greedy `[^"]*` before `icon_thumbs`: try the
longest non-quote run first and shrink until the tail matches. -/
def matchThumbGroupFrom (s : List Char) : Nat → Option (List Char × Nat)
  | 0 => matchThumbTail s 0
  | m + 1 =>
    match matchThumbTail s (m + 1) with
    | some r => some r
    | none => matchThumbGroupFrom s m

/-- Match the capture group `([^"]*icon_thumbs(Up|Down)[^"]*)"` at the start
of `s`, greedily as the regex engine does. -/
def matchThumbGroup (s : List Char) : Option (List Char × Nat) :=
  matchThumbGroupFrom s ((s.takeWhile (fun ch => ch != '"')).length)

/-- Match `src="` followed by the quoted group at the start of `s`. -/
def matchSrcQuoted (s : List Char) : Option (List Char × Nat) :=
  if startsWithCI (("src=").toList ++ ['"']) s then
    match matchThumbGroup (s.drop 5) with
    | some (alt, n) => some (alt, 5 + n)
    | none => none
  else none

/-- Backtracking for the greedy `[^>]+` after `<img`: try the longest
non-`>` run first (at least one character) and shrink until `src="` and the
rest of the pattern match. -/
def matchImgBodyFrom (body : List Char) : Nat → Option (List Char × Nat)
  | 0 => none
  | k + 1 =>
    match matchSrcQuoted (body.drop (k + 1)) with
    | some (alt, n) => some (alt, k + 1 + n)
    | none => matchImgBodyFrom body k

/-- Match the whole vote-marker regex
`<img[^>]+src="([^"]*icon_thumbs(Up|Down)[^"]*)"` at the start of `s`.
Returns the captured alternation text and the match length. -/
def matchImgHere (s : List Char) : Option (List Char × Nat) :=
  if startsWithCI (("<img").toList) s then
    let body := s.drop 4
    match matchImgBodyFrom body ((body.takeWhile (fun ch => ch != '>')).length) with
    | some (alt, n) => some (alt, 4 + n)
    | none => none
  else none

/-- One element of `html.matchAll(reviewImgPattern)`: the match index
(`imgMatch.index` in the source) and the captured `Up`/`Down` text
(`imgMatch[2]`). -/
structure ThumbMatch where
  index : Nat
  alt : List Char
deriving DecidableEq

/-- Leftmost non-overlapping scan of the vote-marker regex, as `matchAll`
does: try each position in turn; after a match resume at its end.  `fuel`
bounds the recursion (every step advances at least one position). -/
def imgScan : List Char → Nat → Nat → List ThumbMatch
  | _, _, 0 => []
  | [], _, _ => []
  | s@(_ :: rest), i, fuel + 1 =>
    match matchImgHere s with
    | some (alt, len) => ⟨i, alt⟩ :: imgScan (s.drop len) (i + len) fuel
    | none => imgScan rest (i + 1) fuel

/-- `[...html.matchAll(reviewImgPattern)]` of the source. -/
def imgMatches (cs : List Char) : List ThumbMatch :=
  imgScan cs 0 (cs.length + 1)

/-- Try `/app/(\d+)` at offset `m` of `body` (the part after `href="`);
`\d+` is greedy so the capture is the maximal digit run (nonempty). -/
def matchAppTail (body : List Char) (m : Nat) : Option (List Char × Nat) :=
  let t := body.drop m
  if startsWithCI (("/app/").toList) t then
    let ds := (t.drop 5).takeWhile Char.isDigit
    if ds.length = 0 then none else some (ds, m + 5 + ds.length)
  else none

/-- Backtracking for the greedy `[^"]*` of the app-link regex: longest
non-quote run first, shrinking until `/app/(\d+)` matches. -/
def matchAppBodyFrom (body : List Char) : Nat → Option (List Char × Nat)
  | 0 => matchAppTail body 0
  | m + 1 =>
    match matchAppTail body (m + 1) with
    | some r => some r
    | none => matchAppBodyFrom body m

/-- Match the app-link regex `href="[^"]*\/app\/(\d+)` at the start of `s`,
returning the captured digits and the match length. -/
def matchAppHere (s : List Char) : Option (List Char × Nat) :=
  if startsWithCI (("href=").toList ++ ['"']) s then
    let body := s.drop 6
    match matchAppBodyFrom body ((body.takeWhile (fun ch => ch != '"')).length) with
    | some (ds, n) => some (ds, 6 + n)
    | none => none
  else none

/-- Leftmost non-overlapping `matchAll` scan for app links, keeping the
captured digit groups in order. -/
def appScan : List Char → Nat → List (List Char)
  | _, 0 => []
  | [], _ => []
  | s@(_ :: rest), fuel + 1 =>
    match matchAppHere s with
    | some (ds, len) => ds :: appScan (s.drop len) fuel
    | none => appScan rest fuel

/-- `[...contextBefore.matchAll(appLinkPattern)]` of the source. -/
def appLinkMatches (cs : List Char) : List (List Char) :=
  appScan cs (cs.length + 1)

/-- The backward window of the source: `searchStart = max(0, imgIndex -
2000)` and `contextBefore = html.substring(searchStart, imgIndex)`; the app
links found in that window.  (`Nat` subtraction realises the clamp.) -/
def windowLinks (cs : List Char) (idx : Nat) : List (List Char) :=
  appLinkMatches ((cs.drop (idx - 2000)).take (idx - (idx - 2000)))

/-- The captured text the source compares against with
`thumbType === 'Up'`. -/
def upChars : List Char := ['U', 'p']

/-- Dedup-on-insert of the source:
`if (!reviews.find(r.appId === appId and r.isPositive === isPositive))
reviews.push(...)`. -/
def insertReview (reviews : List Review) (r : Review) : List Review :=
  if reviews.any (fun x => (x.appId == r.appId) && (x.isPositive == r.isPositive)) then reviews
  else reviews ++ [r]

/-- One iteration of the marker loop of `parseReviewsFromHTML`: resolve the
nearest preceding app link in the 2000-character window (the last element
of the window's match list); if none, count the marker as skipped
(`skipReasons.noAppId.push`), else dedup-insert the review.  The
accumulator is `(reviews, skip count)`. -/
def parseStep (cs : List Char) (acc : List Review × Nat) (m : ThumbMatch) :
    List Review × Nat :=
  match (windowLinks cs m.index).getLast? with
  | none => (acc.1, acc.2 + 1)
  | some d => (insertReview acc.1 ⟨String.mk d, decide (m.alt = upChars)⟩, acc.2)

/-- `parseReviewsFromHTML(html)`: the extracted review list together with
the `skipReasons.noAppId.length` counter the source logs.  Total by
construction, as the source is by its catch-all handlers. -/
def parseReviewsFromHTML (cs : List Char) : List Review × Nat :=
  (imgMatches cs).foldl (parseStep cs) ([], 0)

/-! ### Scoring Engine (`calculateScore`)

Thresholds are JS numbers, modelled as `ℚ`.  The undefined similarity of a
zero-overlap reviewer is handled exactly as IEEE/JS semantics dictate:
`0/0` is `NaN` and `NaN >= minSimilarity` is `false` for every
`minSimilarity`, which the `qualifies` test below encodes by returning
`false` outright when `overlapCount = 0`; for a positive `overlapCount` the
quotient is an exact rational (the standard idealisation of the double
arithmetic). -/

/-- `Math.round` on a rational: round half away from zero is
half-up for the nonnegative values produced here; JS `Math.round(x)` is
`⌊x + 1/2⌋`. -/
def jsRound (q : ℚ) : ℤ := ⌊q + 1 / 2⌋

/-- The record produced by one entry of `reviewerData`. -/
structure ReviewerRecord where
  steamId : String
  reviews : List Review
deriving DecidableEq

/-- The object returned by `calculateScore`. -/
structure ScoreResult where
  score : ℤ
  totalReviewers : Nat
  matchingReviewers : Nat
  positiveCount : Nat
  avgOverlap : ℚ
  minOverlap : ℚ
  minSimilarity : ℚ
deriving DecidableEq

/-- The `userReviewMap` lookup: `Map.set` overwrites, so the map holds the
last occurrence of each `appId` in `userReviews`. -/
def userLookup (u : List Review) (appId : String) : Option Bool :=
  match u.reverse.find? (fun r => r.appId == appId) with
  | some r => some r.isPositive
  | none => none

/-- `overlapCount` of one reviewer: reviews whose appId the subject's map
contains (duplicates in `reviewer.reviews` are counted each time, as the
source loop does). -/
def overlapCount (u : List Review) (rec : ReviewerRecord) : Nat :=
  rec.reviews.countP (fun r => (userLookup u r.appId).isSome)

/-- `agreementCount` of one reviewer: overlapping reviews whose verdict
equals the subject's mapped verdict. -/
def agreementCount (u : List Review) (rec : ReviewerRecord) : Nat :=
  rec.reviews.countP (fun r => userLookup u r.appId == some r.isPositive)

/-- The qualification test of the source:
`overlapCount >= minOverlap` and then
`(agreementCount / overlapCount) * 100 >= minSimilarity`.  When
`overlapCount = 0` the JS similarity is `NaN` and the comparison is false,
encoded by the inner `false` branch; there is no special-casing in the
source and no exception (JS division never throws). -/
def qualifies (u : List Review) (rec : ReviewerRecord) (minOverlap minSimilarity : ℚ) : Bool :=
  if minOverlap ≤ (overlapCount u rec : ℚ) then
    if overlapCount u rec = 0 then false
    else decide (minSimilarity ≤ (agreementCount u rec : ℚ) / (overlapCount u rec : ℚ) * 100)
  else false

/-- `reviewer.reviews.find(r.appId === targetAppId)` followed by
`targetReview && targetReview.isPositive`: first match wins, absence counts
as not positive. -/
def targetPositive (rec : ReviewerRecord) (targetAppId : String) : Bool :=
  match rec.reviews.find? (fun r => r.appId == targetAppId) with
  | some r => r.isPositive
  | none => false

/-- One iteration of the reviewer loop of `calculateScore`, accumulating
`(matchingReviewers, positiveCount, totalOverlap)`. -/
def scoreStep (u : List Review) (t : String) (mo ms : ℚ)
    (acc : Nat × Nat × Nat) (rec : ReviewerRecord) : Nat × Nat × Nat :=
  if qualifies u rec mo ms then
    (acc.1 + 1,
     acc.2.1 + (if targetPositive rec t then 1 else 0),
     acc.2.2 + overlapCount u rec)
  else acc

/-- `calculateScore(userReviews, reviewerData, targetAppId, minOverlap,
minSimilarity)`. -/
def calculateScore (u : List Review) (d : List ReviewerRecord) (t : String)
    (mo ms : ℚ) : ScoreResult :=
  let acc := d.foldl (scoreStep u t mo ms) (0, 0, 0)
  { score := if 0 < acc.1 then jsRound ((acc.2.1 : ℚ) / (acc.1 : ℚ) * 100) else 0
    totalReviewers := d.length
    matchingReviewers := acc.1
    positiveCount := acc.2.1
    avgOverlap := if 0 < acc.1 then (acc.2.2 : ℚ) / (acc.1 : ℚ) else 0
    minOverlap := mo
    minSimilarity := ms }

/-! Spec-side closed forms for the Scoring Engine (from the spec's words in
section 4.5, steps 3 to 6), to be compared with the loop above. -/

/-- Spec: the number of qualifying ("matching") reviewers. -/
def specMatchingReviewers (u : List Review) (d : List ReviewerRecord) (mo ms : ℚ) : Nat :=
  d.countP (fun rec => qualifies u rec mo ms)

/-- Spec: among qualifying reviewers, those whose set holds a positive
verdict for the target game. -/
def specPositiveCount (u : List Review) (d : List ReviewerRecord) (t : String) (mo ms : ℚ) : Nat :=
  d.countP (fun rec => qualifies u rec mo ms && targetPositive rec t)

/-- Spec: the total overlap across qualifying reviewers. -/
def specTotalOverlap (u : List Review) (d : List ReviewerRecord) (mo ms : ℚ) : Nat :=
  ((d.filter (fun rec => qualifies u rec mo ms)).map (overlapCount u)).sum

/-! ### Cancellation polling and the transport oracle -/

/-- The cooperative `shouldCancel` flag at poll tick `c`: false when never
set, true from tick `cancelFrom` onwards (the flag is set once and only
reset on a new run). -/
def isCancelled (cancelFrom : Option Nat) (c : Nat) : Bool :=
  match cancelFrom with
  | none => false
  | some k => decide (k ≤ c)

/-- A page oracle: for each page number the raw HTML delivered by
`fetchWithRetry`, or `none` when the fetch fails even after its 3 retries
(a transport error).  The retry loop's internal polls are condensed into
the single per-page poll of the loops below; a cancellation observed there
raises exactly like a transport error does, and both are modelled by the
caller's handling of the poll / of `none`. -/
abbrev PageOracle := Nat → Option (List Char)

/-! ### Paginated Profile Fetcher (`fetchAllReviewsFromProfile`) -/

/-- `const maxPages = 50` of the source. -/
def maxPages : Nat := 50

/-- The pagination loop of `fetchAllReviewsFromProfile`: `while (page <=
maxPages)`, fetch the page (one poll; a poll observing cancellation makes
`fetchWithRetry` throw, which the loop's catch turns into a break, exactly
like a transport error), parse it, stop on zero extracted reviews, append,
stop when fewer than 10 were extracted, else advance.  Returns the
accumulated reviews, the number of successfully fetched pages, and the
poll counter.  `fuel` is `maxPages + 1` at the top call, enough for the
`page <= maxPages` guard to be the real terminator. -/
def fetchAllLoop (cancelFrom : Option Nat) (pages : PageOracle) :
    Nat → Nat → List Review → Nat → Nat → List Review × Nat × Nat
  | 0, _, acc, fetched, c => (acc, fetched, c)
  | fuel + 1, page, acc, fetched, c =>
    if page ≤ maxPages then
      if isCancelled cancelFrom c then (acc, fetched, c + 1)
      else
        match pages page with
        | none => (acc, fetched, c + 1)
        | some html =>
          let revs := (parseReviewsFromHTML html).1
          if revs.length = 0 then (acc, fetched + 1, c + 1)
          else if revs.length < 10 then (acc ++ revs, fetched + 1, c + 1)
          else fetchAllLoop cancelFrom pages fuel (page + 1) (acc ++ revs) (fetched + 1) (c + 1)
    else (acc, fetched, c)

/-- `fetchAllReviewsFromProfile(baseUrl, ...)`: pagination from page 1.
The function never throws in the source: its whole loop body sits in a
try/catch whose catch breaks, and the trailing `logProgress` catches its
own failures. -/
def fetchAllReviewsFromProfile (cancelFrom : Option Nat) (pages : PageOracle) (c : Nat) :
    List Review × Nat × Nat :=
  fetchAllLoop cancelFrom pages (maxPages + 1) 1 [] 0 c

/-- The source calls `fetchAllReviewsFromProfile` inside try/catch in
`fetchReviewerReviews`; the exception-aware view of the call.  The body has
no uncaught throw site (see `fetchAllReviewsFromProfile`), so the result is
always `Except.ok`. -/
def fetchAllReviewsFromProfileE (cancelFrom : Option Nat) (pages : PageOracle) (c : Nat) :
    Except String (List Review × Nat × Nat) :=
  Except.ok (fetchAllReviewsFromProfile cancelFrom pages c)

/-- `fetchReviewerReviews(steamId)`: try the numeric-id profile URL form,
on an exception fall back to the vanity-name form, on a second exception
return `[]`.  Since the inner fetcher never throws, the first attempt's
result is always returned; the vanity oracle is retained as a parameter so
the (dead) fallback structure stays visible. -/
def fetchReviewerReviews (cancelFrom : Option Nat) (numericPages vanityPages : PageOracle)
    (c : Nat) : List Review × Nat :=
  match fetchAllReviewsFromProfileE cancelFrom numericPages c with
  | Except.ok r => (r.1, r.2.2)
  | Except.error _ =>
    match fetchAllReviewsFromProfileE cancelFrom vanityPages c with
    | Except.ok r => (r.1, r.2.2)
    | Except.error _ => ([], c)

/-! ### Reviewer Discovery (`fetchGameReviewers`) -/

/-- One review of the game's review feed: `review.author.steamid` and
`review.voted_up`. -/
structure FeedEntry where
  steamid : String
  votedUp : Bool
deriving DecidableEq

/-- A parsed feed response body: `success`, `reviews`, `cursor`.  An absent
`reviews` field behaves like `[]` (both fail the `!data.reviews ||
data.reviews.length === 0` test the same way); an absent `cursor` is
`none`. -/
structure FeedOk where
  success : Bool
  reviews : List FeedEntry
  cursor : Option String
deriving DecidableEq

/-- The feed oracle: for each request number the parsed response, or `none`
when the fetch fails after retries or the body fails to parse (both throw
into the same catch in the source). -/
abbrev FeedOracle := Nat → Option FeedOk

/-- A discovered reviewer identity as pushed by the source. -/
structure Reviewer where
  steamId : String
  profileUrl : String
  votedUp : Bool
deriving DecidableEq

def STEAM_COMMUNITY_URL : String := "https://steamcommunity.com"

/-- The record pushed per feed review. -/
def toReviewer (e : FeedEntry) : Reviewer :=
  ⟨e.steamid, STEAM_COMMUNITY_URL ++ ("/profiles/") ++ e.steamid, e.votedUp⟩

/-- JS truthiness of `data.cursor` in `if (!data.cursor || ...)`: absent or
the empty string are falsy. -/
def cursorTruthy : Option String → Bool
  | none => false
  | some s => !(s == "")

/-- The discovery loop of `fetchGameReviewers`: `while (totalFetched <
maxProfiles && !shouldCancel)` (one poll per iteration, covering both the
loop condition and the condensed `fetchWithRetry` poll), break on error,
on `success` false, on an empty batch, push the batch, then break when the
cursor is falsy, the batch is smaller than 100 or the running total reached
`maxProfiles`.  Returns the unsliced reviewer list, `requestCount` and the
poll counter.  `fuel` is `maxProfiles + 1` at the top call: every continuing
iteration strictly increases the total while it stays below `maxProfiles`,
so the fuel never binds. -/
def fetchGameReviewersLoop (cancelFrom : Option Nat) (feed : FeedOracle) (maxProfiles : Nat) :
    Nat → List Reviewer → Nat → Nat → Nat → List Reviewer × Nat × Nat
  | 0, rs, _, req, c => (rs, req, c)
  | fuel + 1, rs, total, req, c =>
    if total < maxProfiles then
      if isCancelled cancelFrom c then (rs, req, c + 1)
      else
        match feed (req + 1) with
        | none => (rs, req + 1, c + 1)
        | some d =>
          if !d.success then (rs, req + 1, c + 1)
          else if d.reviews.isEmpty then (rs, req + 1, c + 1)
          else
            let rs2 := rs ++ d.reviews.map toReviewer
            let total2 := total + d.reviews.length
            if !(cursorTruthy d.cursor) || decide (d.reviews.length < 100)
                || decide (maxProfiles ≤ total2) then
              (rs2, req + 1, c + 1)
            else fetchGameReviewersLoop cancelFrom feed maxProfiles fuel rs2 total2 (req + 1) (c + 1)
    else (rs, req, c)

/-- `fetchGameReviewers(appId, maxProfiles)`: the loop followed by
`reviewers.slice(0, maxProfiles)`. -/
def fetchGameReviewers (cancelFrom : Option Nat) (feed : FeedOracle) (maxProfiles : Nat)
    (c : Nat) : List Reviewer × Nat × Nat :=
  let r := fetchGameReviewersLoop cancelFrom feed maxProfiles (maxProfiles + 1) [] 0 0 c
  (r.1.take maxProfiles, r.2.1, r.2.2)

/-! ### Bulk Profile Collector (`fetchAllReviewerData`) -/

/-- The running counters of `fetchAllReviewerData`. -/
structure Counters where
  processed : Nat
  successCount : Nat
  privateProfileCount : Nat
  errorCount : Nat
deriving DecidableEq

/-- Per-reviewer page oracles, keyed by steam id (one per URL form). -/
abbrev ProfileOracle := String → PageOracle

/-- The collector loop: `if (shouldCancel) break` per reviewer (one poll),
then `processed++`, fetch the reviewer's reviews, classify empty results as
private/empty and nonempty ones as successes (pushing the record).  The
try/catch around the body can only fire on a storage failure (progress and
log writes), which the embedding models as infallible, so `errorCount`
stays as initialised; `fetchReviewerReviews` itself never throws. -/
def fetchAllReviewerDataLoop (cancelFrom : Option Nat) (profNum profVan : ProfileOracle) :
    List Reviewer → List ReviewerRecord → Counters → Nat → List ReviewerRecord × Counters × Nat
  | [], data, cnt, c => (data, cnt, c)
  | r :: rest, data, cnt, c =>
    if isCancelled cancelFrom c then (data, cnt, c + 1)
    else
      let fr := fetchReviewerReviews cancelFrom (profNum r.steamId) (profVan r.steamId) (c + 1)
      if fr.1.isEmpty then
        fetchAllReviewerDataLoop cancelFrom profNum profVan rest data
          ⟨cnt.processed + 1, cnt.successCount, cnt.privateProfileCount + 1, cnt.errorCount⟩ fr.2
      else
        fetchAllReviewerDataLoop cancelFrom profNum profVan rest (data ++ [⟨r.steamId, fr.1⟩])
          ⟨cnt.processed + 1, cnt.successCount + 1, cnt.privateProfileCount, cnt.errorCount⟩ fr.2

/-- `fetchAllReviewerData(reviewers, maxProfiles)` (the `maxProfiles`
parameter is unused in the source body and dropped here). -/
def fetchAllReviewerData (cancelFrom : Option Nat) (profNum profVan : ProfileOracle)
    (reviewers : List Reviewer) (c : Nat) : List ReviewerRecord × Counters × Nat :=
  fetchAllReviewerDataLoop cancelFrom profNum profVan reviewers [] ⟨0, 0, 0, 0⟩ c

/-! ### Analysis Orchestrator (`analyzeGame`, `startBackgroundAnalysis`) -/

/-- The environment of one run: the cancellation schedule, whether
`parseSteamId` resolves the configured subject identity
(`parseSteamId(steamId) !== null`), the transport oracles and the
parameters. -/
structure Env where
  cancelFrom : Option Nat
  validSteamId : Bool
  subjectPages : PageOracle
  feed : FeedOracle
  profNum : ProfileOracle
  profVan : ProfileOracle
  appId : String
  minOverlap : ℚ
  minSimilarity : ℚ
  maxProfiles : Nat

def invalidIdMsg : String :=
  "Invalid Steam ID format. Please enter either your steamID64 (numbers) or custom URL username."

def couldNotFetchMsg : String :=
  "Could not fetch your reviews. Make sure your Steam ID is correct and your profile is public."

def noReviewsMsg : String :=
  "No reviews found for your profile. Make sure your profile is public."

def noReviewersMsg : String := "No reviewers found for this game."

def cancelledMsg : String := "Cancelled"

/-- `fetchUserReviews(steamId)`: reject an unparsable id, fetch the
subject's pages, and throw `couldNotFetchMsg` when nothing was
accumulated. -/
def fetchUserReviews (env : Env) (c : Nat) : Except String (List Review) × Nat :=
  if env.validSteamId then
    let r := fetchAllReviewsFromProfile env.cancelFrom env.subjectPages c
    if r.1.isEmpty then (Except.error couldNotFetchMsg, r.2.2)
    else (Except.ok r.1, r.2.2)
  else (Except.error invalidIdMsg, c)

/-- `analyzeGame(params)`: the four stages with the explicit
`if (shouldCancel) throw new Error('Cancelled')` polls between them and the
zero-result checks, ending in `calculateScore`.  (The source's own
try/catch only logs and rethrows.) -/
def analyzeGame (env : Env) (c : Nat) : Except String ScoreResult × Nat :=
  match fetchUserReviews env c with
  | (Except.error e, c1) => (Except.error e, c1)
  | (Except.ok userReviews, c1) =>
    if isCancelled env.cancelFrom c1 then (Except.error cancelledMsg, c1 + 1)
    else if userReviews.isEmpty then (Except.error noReviewsMsg, c1 + 1)
    else
      let g := fetchGameReviewers env.cancelFrom env.feed env.maxProfiles (c1 + 1)
      if isCancelled env.cancelFrom g.2.2 then (Except.error cancelledMsg, g.2.2 + 1)
      else if g.1.isEmpty then (Except.error noReviewersMsg, g.2.2 + 1)
      else
        let a := fetchAllReviewerData env.cancelFrom env.profNum env.profVan g.1 (g.2.2 + 1)
        if isCancelled env.cancelFrom a.2.2 then (Except.error cancelledMsg, a.2.2 + 1)
        else
          (Except.ok (calculateScore userReviews a.1 env.appId env.minOverlap env.minSimilarity),
           a.2.2 + 1)

/-- The slice of `chrome.storage.local` the orchestrator's terminal write
decides: `analysisResult` and `analysisError` (both initialised to `null`
when the run starts). -/
structure Storage where
  analysisResult : Option ScoreResult
  analysisError : Option String
deriving DecidableEq

/-- `startBackgroundAnalysis(params)`: run `analyzeGame`; on success check
`shouldCancel` once more (a cancelled run stores neither result nor error),
otherwise store the result; on an exception store its message as
`analysisError` unless it is `'Cancelled'`, in which case the fields keep
their initialised `null` values. -/
def startBackgroundAnalysis (env : Env) : Storage :=
  match analyzeGame env 0 with
  | (Except.ok result, c) =>
    if isCancelled env.cancelFrom c then ⟨none, none⟩ else ⟨some result, none⟩
  | (Except.error e, _) =>
    if e == cancelledMsg then ⟨none, none⟩ else ⟨none, some e⟩

/-! ### Spec-side stopping/continuation predicates (from sections 4.2 and
4.3 of the spec), used to state the pagination and discovery claims. -/

/-- A profile page that keeps pagination going: it fetches and yields at
least the 10-review threshold. -/
def BigPage (pages : PageOracle) (i : Nat) : Prop :=
  ∃ h, pages i = some h ∧ 10 ≤ (parseReviewsFromHTML h).1.length

/-- A profile page that ends pagination by content: it fetches and yields
fewer than 10 reviews (including zero). -/
def SmallPage (pages : PageOracle) (i : Nat) : Prop :=
  ∃ h, pages i = some h ∧ (parseReviewsFromHTML h).1.length < 10

/-- A feed batch the discovery loop continues past: parsed, successful,
truthy cursor, a full page of 100, and a running total still below
`maxProfiles` afterwards. -/
def ContBatch (feed : FeedOracle) (maxProfiles i : Nat) : Prop :=
  ∃ d, feed i = some d ∧ d.success = true ∧ cursorTruthy d.cursor = true ∧
    d.reviews.length = 100 ∧ 100 * i < maxProfiles

/-- A feed batch at which the discovery loop stops: transport/parse error,
`success` false, empty batch, falsy cursor, a batch below the page size of
100, or a total reaching `maxProfiles` (the total before batch `i` being
`100 * (i - 1)` after full batches). -/
def StopBatch (feed : FeedOracle) (maxProfiles i : Nat) : Prop :=
  feed i = none ∨ ∃ d, feed i = some d ∧
    (d.success = false ∨ d.reviews = [] ∨ cursorTruthy d.cursor = false ∨
     d.reviews.length < 100 ∨ maxProfiles ≤ 100 * (i - 1) + d.reviews.length)

/-! ### Concrete pages, feeds and environments used by the witnesses and
counterexamples. -/

/-- A page with ten well-formed marker+link blocks (ten distinct apps). -/
def page10 : List Char :=
  ("<a href=\"/app/101\"><img a src=\"icon_thumbsUp\"><a href=\"/app/102\"><img a src=\"icon_thumbsUp\"><a href=\"/app/103\"><img a src=\"icon_thumbsUp\"><a href=\"/app/104\"><img a src=\"icon_thumbsUp\"><a href=\"/app/105\"><img a src=\"icon_thumbsUp\"><a href=\"/app/106\"><img a src=\"icon_thumbsUp\"><a href=\"/app/107\"><img a src=\"icon_thumbsUp\"><a href=\"/app/108\"><img a src=\"icon_thumbsUp\"><a href=\"/app/109\"><img a src=\"icon_thumbsUp\"><a href=\"/app/110\"><img a src=\"icon_thumbsUp\">").toList

/-- A page with seven well-formed marker+link blocks. -/
def page7 : List Char :=
  ("<a href=\"/app/201\"><img a src=\"icon_thumbsUp\"><a href=\"/app/202\"><img a src=\"icon_thumbsUp\"><a href=\"/app/203\"><img a src=\"icon_thumbsUp\"><a href=\"/app/204\"><img a src=\"icon_thumbsUp\"><a href=\"/app/205\"><img a src=\"icon_thumbsUp\"><a href=\"/app/206\"><img a src=\"icon_thumbsUp\"><a href=\"/app/207\"><img a src=\"icon_thumbsUp\">").toList

/-- A page with a single review of app 101 (positive). -/
def pageR : List Char :=
  ("<a href=\"/app/101\"><img a src=\"icon_thumbsUp\">").toList

/-- A page with no vote markers at all. -/
def emptyPage : List Char := ("x").toList

/-- A page holding a positive and a negative marker for the same app id. -/
def htmlC2 : List Char :=
  ("<a href=\"/app/1\"><img a src=\"icon_thumbsUp\"><a href=\"/app/1\"><img a src=\"icon_thumbsDown\">").toList

/-- A page whose first marker has no preceding app link (skipped) and whose
second marker resolves to app 5 with a negative verdict. -/
def htmlC9 : List Char :=
  ("<img a src=\"icon_thumbsUp\"><a href=\"/app/5\"><img a src=\"icon_thumbsDown\">").toList

/-- A page with a single review of app 301 (positive). -/
def page301 : List Char :=
  ("<a href=\"/app/301\"><img a src=\"icon_thumbsUp\">").toList

/-- Numeric-form oracle whose only page yields nothing usable. -/
def numOrC5 : PageOracle := fun n => if n = 1 then some emptyPage else none

/-- Vanity-form oracle whose first page yields one review. -/
def vanOrC5 : PageOracle := fun n => if n = 1 then some page301 else none

/-- Page sizes 10, 10, 10, 7: pages 1 to 3 full, page 4 short. -/
def pagesC6 : PageOracle :=
  fun n => if n ≤ 3 then some page10 else if n = 4 then some page7 else none

/-- Fifty-plus consecutive full pages. -/
def constPagesC6 : PageOracle := fun _ => some page10

/-- Subject pages: page 1 full, page 2 a transport error. -/
def subjPagesC4 : PageOracle := fun n => if n = 1 then some page10 else none

/-- One successful feed batch with a single reviewer and no next cursor. -/
def feedC4 : FeedOracle :=
  fun n => if n = 1 then some ⟨true, [⟨("900"), true⟩], none⟩ else none

/-- Every reviewer profile serves one page with one review of app 101. -/
def profC4 : ProfileOracle := fun _ => fun n => if n = 1 then some pageR else none

/-- A run with no cancellation in which the subject's page 2 fetch fails
with a transport error, yet the pipeline completes. -/
def envC4 : Env := ⟨none, true, subjPagesC4, feedC4, profC4, profC4, ("101"), 1, 50, 10⟩

/-- The same run but with cancellation requested before the very first
fetch (`shouldCancel` reads true from poll tick 0 on). -/
def envC3 : Env := ⟨some 0, true, subjPagesC4, feedC4, profC4, profC4, ("101"), 1, 50, 10⟩

/-- A feed whose first batch is successful with 2 entries (fewer than the
page size 100) and a truthy cursor. -/
def feedC7 : FeedOracle :=
  fun n =>
    if n = 1 then some ⟨true, [⟨("900"), true⟩, ⟨("901"), false⟩], some ("next")⟩ else none

/-- Subject reviews for the scoring counterexamples: one positive review of
app 1. -/
def uC1 : List Review := [⟨("1"), true⟩]

/-- A reviewer record with no overlap with `uC1`. -/
def recC1 : ReviewerRecord := ⟨("9"), [⟨("2"), true⟩]⟩

/-! ### Lemmas: dedup-on-insert -/

theorem insertReview_guard (l : List Review) (r : Review) :
    (l.any (fun x => (x.appId == r.appId) && (x.isPositive == r.isPositive)) = true) ↔ r ∈ l := by
  constructor
  · intro h
    rcases List.any_eq_true.mp h with ⟨x, hx, hb⟩
    simp only [Bool.and_eq_true, beq_iff_eq] at hb
    obtain ⟨h1, h2⟩ := hb
    have hx2 : x = r := by cases x; cases r; simp_all
    exact hx2 ▸ hx
  · intro h
    exact List.any_eq_true.mpr ⟨r, h, by simp⟩

theorem insertReview_mem_self (l : List Review) (r : Review) : r ∈ insertReview l r := by
  unfold insertReview
  by_cases h : l.any (fun x => (x.appId == r.appId) && (x.isPositive == r.isPositive)) = true
  · rw [if_pos h]; exact (insertReview_guard l r).mp h
  · rw [if_neg h]; simp

theorem insertReview_mem_mono (l : List Review) (r x : Review) (hx : x ∈ l) :
    x ∈ insertReview l r := by
  unfold insertReview
  by_cases h : l.any (fun y => (y.appId == r.appId) && (y.isPositive == r.isPositive)) = true
  · rw [if_pos h]; exact hx
  · rw [if_neg h]; exact List.mem_append_left _ hx

theorem insertReview_nodup (l : List Review) (r : Review) (hl : l.Nodup) :
    (insertReview l r).Nodup := by
  unfold insertReview
  by_cases h : l.any (fun y => (y.appId == r.appId) && (y.isPositive == r.isPositive)) = true
  · rw [if_pos h]; exact hl
  · rw [if_neg h]
    have hr : r ∉ l := fun hmem => h ((insertReview_guard l r).mpr hmem)
    simp [List.nodup_append, hl, hr]

/-! ### Lemmas: the extractor's marker loop -/

theorem parse_foldl_spec (cs : List Char) :
    ∀ (ms : List ThumbMatch) (acc : List Review × Nat),
      ((ms.foldl (parseStep cs) acc).2
          = acc.2 + ms.countP (fun m => ((windowLinks cs m.index).getLast?).isNone))
      ∧ (∀ r ∈ acc.1, r ∈ (ms.foldl (parseStep cs) acc).1)
      ∧ (∀ m ∈ ms, ∀ d, (windowLinks cs m.index).getLast? = some d →
            (⟨String.mk d, decide (m.alt = upChars)⟩ : Review) ∈ (ms.foldl (parseStep cs) acc).1)
      ∧ (acc.1.Nodup → (ms.foldl (parseStep cs) acc).1.Nodup) := by
  intro ms
  induction ms with
  | nil =>
    intro acc
    refine ⟨by simp, fun r hr => hr, by simp, fun h => h⟩
  | cons m tail ih =>
    intro acc
    rw [List.foldl_cons]
    rcases hw : (windowLinks cs m.index).getLast? with _ | d
    · have hstep : parseStep cs acc m = (acc.1, acc.2 + 1) := by
        unfold parseStep; rw [hw]
      rw [hstep]
      obtain ⟨h1, h2, h3, h4⟩ := ih (acc.1, acc.2 + 1)
      refine ⟨?_, h2, ?_, h4⟩
      · rw [h1]; simp [List.countP_cons, hw]; omega
      · intro m' hm' d' hd'
        rcases List.mem_cons.mp hm' with hEq | hmem
        · subst hEq; rw [hw] at hd'; cases hd'
        · exact h3 m' hmem d' hd'
    · have hstep : parseStep cs acc m
          = (insertReview acc.1 ⟨String.mk d, decide (m.alt = upChars)⟩, acc.2) := by
        unfold parseStep; rw [hw]
      rw [hstep]
      obtain ⟨h1, h2, h3, h4⟩ :=
        ih (insertReview acc.1 ⟨String.mk d, decide (m.alt = upChars)⟩, acc.2)
      refine ⟨?_, ?_, ?_, ?_⟩
      · rw [h1]; simp [List.countP_cons, hw]
      · intro r hr; exact h2 r (insertReview_mem_mono _ _ _ hr)
      · intro m' hm' d' hd'
        rcases List.mem_cons.mp hm' with hEq | hmem
        · subst hEq
          rw [hw] at hd'
          injection hd' with hd2
          subst hd2
          exact h2 _ (insertReview_mem_self _ _)
        · exact h3 m' hmem d' hd'
      · intro hnd; exact h4 (insertReview_nodup _ _ hnd)

/-! ### Lemmas: the scoring loop versus the spec's closed forms -/

theorem qualifies_overlap_zero (u : List Review) (rec : ReviewerRecord) (mo ms : ℚ)
    (h : overlapCount u rec = 0) : qualifies u rec mo ms = false := by
  unfold qualifies
  rw [h]
  simp

theorem score_foldl_spec (u : List Review) (t : String) (mo ms : ℚ) :
    ∀ (d : List ReviewerRecord) (acc : Nat × Nat × Nat),
      d.foldl (scoreStep u t mo ms) acc
        = (acc.1 + specMatchingReviewers u d mo ms,
           acc.2.1 + specPositiveCount u d t mo ms,
           acc.2.2 + specTotalOverlap u d mo ms) := by
  intro d
  induction d with
  | nil =>
    intro acc
    simp [specMatchingReviewers, specPositiveCount, specTotalOverlap]
  | cons rec rest ih =>
    intro acc
    rw [List.foldl_cons, ih]
    unfold specMatchingReviewers specPositiveCount specTotalOverlap scoreStep
    by_cases hq : qualifies u rec mo ms = true
    · by_cases hp : targetPositive rec t = true
      · simp only [hq, hp, if_true, List.countP_cons, List.filter_cons, Bool.and_self,
          List.map_cons, List.sum_cons]
        refine Prod.ext ?_ (Prod.ext ?_ ?_) <;> simp [hq, hp] <;> omega
      · simp only [hq, List.countP_cons, List.filter_cons, List.map_cons, List.sum_cons]
        refine Prod.ext ?_ (Prod.ext ?_ ?_) <;> simp [hq, hp] <;> omega
    · have hq' : qualifies u rec mo ms = false := by revert hq; cases qualifies u rec mo ms <;> simp
      simp only [List.countP_cons, List.filter_cons]
      refine Prod.ext ?_ (Prod.ext ?_ ?_) <;> simp [hq', hq]

/-! ### Claims about the extractor and the scoring engine -/

/-- C2 counterexample: from one parse pass of a page holding a thumbs-up and
a thumbs-down marker for the same app id, both contradictory verdicts are
recorded — the dedup key is the full `(appId, isPositive)` pair, not the
app id alone. -/
theorem claim_C2_counterexample :
    (Review.mk ("1") true) ∈ (parseReviewsFromHTML htmlC2).1 ∧
    (Review.mk ("1") false) ∈ (parseReviewsFromHTML htmlC2).1 := by decide

/-- C2 (amended): a single parse pass never records the same
`(gameId, verdict)` pair twice — first-seen wins on exact duplicates via
dedup-on-insert — though a positive and a negative verdict for the same
gameId can both be recorded. -/
theorem claim_C2 : ∀ cs : List Char, (parseReviewsFromHTML cs).1.Nodup :=
  fun cs => (parse_foldl_spec cs (imgMatches cs) ([], 0)).2.2.2 List.nodup_nil

/-- C9: the extractor is total by construction (it returns a list for every
input string), its unresolved counter counts exactly the vote markers with
no app link in the 2000-character lookback window (skipped, not fatal), and
every marker whose window holds an app link contributes a review paired
with the nearest preceding link's game id. -/
theorem claim_C9 : ∀ cs : List Char,
    ((parseReviewsFromHTML cs).2
        = (imgMatches cs).countP (fun m => ((windowLinks cs m.index).getLast?).isNone))
    ∧ (∀ m ∈ imgMatches cs, ∀ d, (windowLinks cs m.index).getLast? = some d →
        (⟨String.mk d, decide (m.alt = upChars)⟩ : Review) ∈ (parseReviewsFromHTML cs).1) := by
  intro cs
  obtain ⟨h1, _, h3, _⟩ := parse_foldl_spec cs (imgMatches cs) ([], 0)
  refine ⟨?_, ?_⟩
  · unfold parseReviewsFromHTML
    simpa using h1
  · intro m hm d hd
    exact h3 m hm d hd

/-- C9 witness: on `htmlC9` the linkless first marker is counted skipped
and the second marker yields the review for app 5. -/
theorem claim_C9_witness :
    (parseReviewsFromHTML htmlC9).2 = 1 ∧
    (Review.mk ("5") false) ∈ (parseReviewsFromHTML htmlC9).1 := by
  have h := claim_C9 htmlC9
  constructor
  · rw [h.1]; decide
  · have hm : (⟨44, ['D', 'o', 'w', 'n']⟩ : ThumbMatch) ∈ imgMatches htmlC9 := by decide
    have hd : (windowLinks htmlC9 44).getLast? = some ['5'] := by decide
    have hmem := h.2 ⟨44, ['D', 'o', 'w', 'n']⟩ hm ['5'] hd
    exact hmem

/-- C1 counterexample: with `minOverlap = 0` and `minSimilarity = 0`, a
reviewer with zero overlap does NOT qualify (`matchingReviewers = 0`): the
JS similarity `(0/0)*100` is `NaN` and `NaN >= 0` is false, so the claim's
"qualifies iff both thresholds are at most 0" fails at this input. -/
theorem claim_C1_counterexample :
    overlapCount uC1 recC1 = 0 ∧
    (calculateScore uC1 [recC1] ("3") 0 0).matchingReviewers = 0 := by decide

/-- C1 (amended): the scoring engine never divides by zero in an observable
way — a reviewer with `overlapCount = 0` has an undefined (NaN) similarity
whose threshold comparison is always false, so zero-overlap reviewers never
qualify, whatever `minOverlap` and `minSimilarity` are (in particular even
when both are at most 0). -/
theorem claim_C1 : ∀ (u : List Review) (d : List ReviewerRecord) (t : String) (mo ms : ℚ),
    (∀ rec ∈ d, overlapCount u rec = 0) →
    (calculateScore u d t mo ms).matchingReviewers = 0 ∧
    (calculateScore u d t mo ms).score = 0 := by
  intro u d t mo ms h
  have hm : specMatchingReviewers u d mo ms = 0 :=
    List.countP_eq_zero.mpr (fun rec hr => by
      simp [qualifies_overlap_zero u rec mo ms (h rec hr)])
  have key := score_foldl_spec u t mo ms d (0, 0, 0)
  unfold calculateScore
  rw [key]
  simp [hm]

/-- C1 witness: the amended statement applied to the concrete zero-overlap
input of the counterexample. -/
theorem claim_C1_witness :
    (∀ rec ∈ [recC1], overlapCount uC1 rec = 0) ∧
    (calculateScore uC1 [recC1] ("3") 0 0).matchingReviewers = 0 ∧
    (calculateScore uC1 [recC1] ("3") 0 0).score = 0 := by
  have h : ∀ rec ∈ [recC1], overlapCount uC1 rec = 0 := by decide
  exact ⟨h, claim_C1 uC1 [recC1] ("3") 0 0 h⟩

/-- C8: the scoring loop realises the spec's closed forms — the score is
`round(positiveCount / matchingReviewers * 100)` and the average overlap is
`totalOverlapAcrossQualifying / matchingReviewers` whenever
`matchingReviewers > 0`, and both are 0 when no reviewer matches. -/
theorem claim_C8 : ∀ (u : List Review) (d : List ReviewerRecord) (t : String) (mo ms : ℚ),
    ((calculateScore u d t mo ms).matchingReviewers = specMatchingReviewers u d mo ms)
    ∧ ((calculateScore u d t mo ms).positiveCount = specPositiveCount u d t mo ms)
    ∧ ((calculateScore u d t mo ms).score =
        (if 0 < specMatchingReviewers u d mo ms then
          jsRound ((specPositiveCount u d t mo ms : ℚ)
            / (specMatchingReviewers u d mo ms : ℚ) * 100)
        else 0))
    ∧ ((calculateScore u d t mo ms).avgOverlap =
        (if 0 < specMatchingReviewers u d mo ms then
          (specTotalOverlap u d mo ms : ℚ) / (specMatchingReviewers u d mo ms : ℚ)
        else 0)) := by
  intro u d t mo ms
  have key := score_foldl_spec u t mo ms d (0, 0, 0)
  unfold calculateScore
  rw [key]
  simp

/-! ### Lemmas: the pagination loop -/

theorem fetchAllLoop_big (pages : PageOracle) (fuel page : Nat) (acc : List Review)
    (fetched c : Nat) (html : List Char) (hpg : pages page = some html)
    (hlen : 10 ≤ (parseReviewsFromHTML html).1.length) (hp : page ≤ maxPages) :
    fetchAllLoop none pages (fuel + 1) page acc fetched c
      = fetchAllLoop none pages fuel (page + 1) (acc ++ (parseReviewsFromHTML html).1)
          (fetched + 1) (c + 1) := by
  have h0 : ¬((parseReviewsFromHTML html).1.length = 0) := by omega
  have h1 : ¬((parseReviewsFromHTML html).1.length < 10) := by omega
  conv_lhs => unfold fetchAllLoop
  simp [hp, isCancelled, hpg, h0, h1]

theorem fetchAllLoop_small (pages : PageOracle) (fuel page : Nat) (acc : List Review)
    (fetched c : Nat) (html : List Char) (hpg : pages page = some html)
    (hlen : (parseReviewsFromHTML html).1.length < 10) (hp : page ≤ maxPages) :
    fetchAllLoop none pages (fuel + 1) page acc fetched c
      = (acc ++ (parseReviewsFromHTML html).1, fetched + 1, c + 1) := by
  conv_lhs => unfold fetchAllLoop
  by_cases h0 : (parseReviewsFromHTML html).1.length = 0
  · have he : (parseReviewsFromHTML html).1 = [] := List.length_eq_zero.mp h0
    simp [hp, isCancelled, hpg, h0, he]
  · simp [hp, isCancelled, hpg, h0, hlen]

theorem fetchAllLoop_err (pages : PageOracle) (fuel page : Nat) (acc : List Review)
    (fetched c : Nat) (hpg : pages page = none) (hp : page ≤ maxPages) :
    fetchAllLoop none pages (fuel + 1) page acc fetched c = (acc, fetched, c + 1) := by
  conv_lhs => unfold fetchAllLoop
  simp [hp, isCancelled, hpg]

theorem fetchAllLoop_skipBig (pages : PageOracle) :
    ∀ (j : Nat), ∀ (rem page : Nat) (acc : List Review) (fetched c : Nat),
      (∀ i, i < j → BigPage pages (page + i)) → page + j ≤ maxPages + 1 →
      ∃ rest : List Review,
        fetchAllLoop none pages (j + rem) page acc fetched c
          = fetchAllLoop none pages rem (page + j) (acc ++ rest) (fetched + j) (c + j)
        ∧ (j = 0 → rest = []) ∧ (0 < j → rest ≠ []) := by
  intro j
  induction j with
  | zero =>
    intro rem page acc fetched c _ _
    exact ⟨[], by simp, fun _ => rfl, fun h => absurd h (Nat.lt_irrefl 0)⟩
  | succ j ih =>
    intro rem page acc fetched c hbig hle
    obtain ⟨html, hpg, hlen⟩ := hbig 0 (Nat.succ_pos j)
    rw [Nat.add_zero] at hpg
    have hp : page ≤ maxPages := by
      have : maxPages = 50 := rfl
      omega
    have hfuel : j + 1 + rem = (j + rem) + 1 := by omega
    rw [hfuel, fetchAllLoop_big pages (j + rem) page acc fetched c html hpg hlen hp]
    obtain ⟨rest2, heq, _, hne⟩ :=
      ih rem (page + 1) (acc ++ (parseReviewsFromHTML html).1) (fetched + 1) (c + 1)
        (fun i hi => by
          have hb := hbig (i + 1) (by omega)
          have harr : page + (i + 1) = page + 1 + i := by omega
          rw [harr] at hb
          exact hb)
        (by omega)
    refine ⟨(parseReviewsFromHTML html).1 ++ rest2, ?_, ?_, ?_⟩
    · rw [heq, List.append_assoc]
      have e1 : page + 1 + j = page + (j + 1) := by omega
      have e2 : fetched + 1 + j = fetched + (j + 1) := by omega
      have e3 : c + 1 + j = c + (j + 1) := by omega
      rw [e1, e2, e3]
    · intro h
      exact absurd h (Nat.succ_ne_zero j)
    · intro _
      have : (parseReviewsFromHTML html).1 ≠ [] := by
        intro hnil
        rw [hnil] at hlen
        simp at hlen
      simp [this]

theorem fetchAllLoop_stop (pages : PageOracle) (fuel page : Nat) (acc : List Review)
    (fetched c : Nat) (hp : ¬(page ≤ maxPages)) :
    fetchAllLoop none pages fuel page acc fetched c = (acc, fetched, c) := by
  cases fuel with
  | zero => rfl
  | succ f =>
    conv_lhs => unfold fetchAllLoop
    rw [if_neg hp]

/-! ### Lemmas: the discovery loop -/

theorem fetchGameReviewersLoop_cont (feed : FeedOracle) (maxP fuel : Nat) (rs : List Reviewer)
    (req c : Nat) (d : FeedOk) (hd : feed (req + 1) = some d) (hs : d.success = true)
    (hcur : cursorTruthy d.cursor = true) (hlen : d.reviews.length = 100)
    (hm : 100 * (req + 1) < maxP) (hentry : 100 * req < maxP) :
    fetchGameReviewersLoop none feed maxP (fuel + 1) rs (100 * req) req c
      = fetchGameReviewersLoop none feed maxP fuel (rs ++ d.reviews.map toReviewer)
          (100 * (req + 1)) (req + 1) (c + 1) := by
  have hne : d.reviews.isEmpty = false := by
    cases hrev : d.reviews with
    | nil => rw [hrev] at hlen; simp at hlen
    | cons a l => simp
  conv_lhs => unfold fetchGameReviewersLoop
  rw [if_pos hentry]
  have e : 100 * req + d.reviews.length = 100 * (req + 1) := by rw [hlen]; ring
  simp [isCancelled, hd, hs, hne, e]
  intro h
  exfalso
  rcases h with (h | h) | h
  · rw [hcur] at h; cases h
  · omega
  · omega

theorem fetchGameReviewersLoop_stop (feed : FeedOracle) (maxP fuel : Nat) (rs : List Reviewer)
    (req c : Nat) (hstop : StopBatch feed maxP (req + 1)) (hentry : 100 * req < maxP) :
    (fetchGameReviewersLoop none feed maxP (fuel + 1) rs (100 * req) req c).2.1 = req + 1 := by
  conv_lhs => unfold fetchGameReviewersLoop
  rcases hstop with hnone | ⟨d, hd, hcase⟩
  · simp [hentry, isCancelled, hnone]
  · have hidx : (req + 1) - 1 = req := by omega
    rw [hidx] at hcase
    cases hs : d.success with
    | false => simp [hentry, isCancelled, hd, hs]
    | true =>
      cases hrev : d.reviews.isEmpty with
      | true => simp [hentry, isCancelled, hd, hs, hrev]
      | false =>
        have hcond : (!(cursorTruthy d.cursor) || decide (d.reviews.length < 100)
            || decide (maxP ≤ 100 * req + d.reviews.length)) = true := by
          rcases hcase with h | h | h | h | h
          · rw [hs] at h; cases h
          · rw [h] at hrev; simp at hrev
          · simp [h]
          · simp [h]
          · simp [h]
        simp [hentry, isCancelled, hd, hs, hrev, hcond]

theorem fetchGameReviewersLoop_run (feed : FeedOracle) (maxP : Nat) :
    ∀ (m fuel : Nat) (rs : List Reviewer) (req c : Nat),
      (∀ i, req < i → i ≤ req + m → ContBatch feed maxP i) →
      StopBatch feed maxP (req + m + 1) → 100 * (req + m) < maxP → m + 1 ≤ fuel →
      (fetchGameReviewersLoop none feed maxP fuel rs (100 * req) req c).2.1 = req + m + 1 := by
  intro m
  induction m with
  | zero =>
    intro fuel rs req c _ hstop hlt hfuel
    obtain ⟨f, rfl⟩ : ∃ f, fuel = f + 1 := ⟨fuel - 1, by omega⟩
    rw [Nat.add_zero] at hstop hlt
    exact fetchGameReviewersLoop_stop feed maxP f rs req c hstop hlt
  | succ m ih =>
    intro fuel rs req c hcont hstop hlt hfuel
    obtain ⟨f, rfl⟩ : ∃ f, fuel = f + 1 := ⟨fuel - 1, by omega⟩
    obtain ⟨d, hd, hs, hcur, hlen, hm⟩ := hcont (req + 1) (by omega) (by omega)
    have hentry : 100 * req < maxP := by omega
    rw [fetchGameReviewersLoop_cont feed maxP f rs req c d hd hs hcur hlen hm hentry]
    have hres := ih f (rs ++ d.reviews.map toReviewer) (req + 1) (c + 1)
      (fun i h1 h2 => hcont i (by omega) (by omega))
      (by
        have e : req + 1 + m + 1 = req + (m + 1) + 1 := by omega
        rw [e]
        exact hstop)
      (by
        have e : req + 1 + m = req + (m + 1) := by omega
        rw [e]
        exact hlt)
      (by omega)
    rw [hres]
    omega

/-! ### Lemmas: the collector loop -/

theorem fetchAllReviewerDataLoop_spec (cancelFrom : Option Nat) (profNum profVan : ProfileOracle) :
    ∀ (rs : List Reviewer) (data : List ReviewerRecord) (cnt : Counters) (c : Nat),
      ∃ s p : Nat,
        (fetchAllReviewerDataLoop cancelFrom profNum profVan rs data cnt c).2.1
          = ⟨cnt.processed + (s + p), cnt.successCount + s, cnt.privateProfileCount + p,
             cnt.errorCount⟩
        ∧ (fetchAllReviewerDataLoop cancelFrom profNum profVan rs data cnt c).1.length
            = data.length + s := by
  intro rs
  induction rs with
  | nil =>
    intro data cnt c
    refine ⟨0, 0, ?_, ?_⟩ <;> simp [fetchAllReviewerDataLoop]
  | cons r rest ih =>
    intro data cnt c
    by_cases hcan : isCancelled cancelFrom c = true
    · refine ⟨0, 0, ?_, ?_⟩ <;> simp [fetchAllReviewerDataLoop, hcan]
    · have hcan' : isCancelled cancelFrom c = false := by
        revert hcan; cases isCancelled cancelFrom c <;> simp
      by_cases hemp :
          (fetchReviewerReviews cancelFrom (profNum r.steamId) (profVan r.steamId) (c + 1)).1.isEmpty
            = true
      · have hstep : fetchAllReviewerDataLoop cancelFrom profNum profVan (r :: rest) data cnt c
            = fetchAllReviewerDataLoop cancelFrom profNum profVan rest data
                ⟨cnt.processed + 1, cnt.successCount, cnt.privateProfileCount + 1, cnt.errorCount⟩
                (fetchReviewerReviews cancelFrom (profNum r.steamId) (profVan r.steamId) (c + 1)).2 := by
          conv_lhs => unfold fetchAllReviewerDataLoop
          simp [hcan', hemp]
        obtain ⟨s, p, h1, h2⟩ := ih data
          ⟨cnt.processed + 1, cnt.successCount, cnt.privateProfileCount + 1, cnt.errorCount⟩
          (fetchReviewerReviews cancelFrom (profNum r.steamId) (profVan r.steamId) (c + 1)).2
        refine ⟨s, p + 1, ?_, ?_⟩
        · rw [hstep, h1]
          simp [Counters.mk.injEq]
          omega
        · rw [hstep, h2]
      · have hemp' :
            (fetchReviewerReviews cancelFrom (profNum r.steamId) (profVan r.steamId) (c + 1)).1.isEmpty
              = false := by
          revert hemp
          cases (fetchReviewerReviews cancelFrom (profNum r.steamId) (profVan r.steamId) (c + 1)).1.isEmpty <;> simp
        have hstep : fetchAllReviewerDataLoop cancelFrom profNum profVan (r :: rest) data cnt c
            = fetchAllReviewerDataLoop cancelFrom profNum profVan rest
                (data ++ [⟨r.steamId,
                  (fetchReviewerReviews cancelFrom (profNum r.steamId) (profVan r.steamId) (c + 1)).1⟩])
                ⟨cnt.processed + 1, cnt.successCount + 1, cnt.privateProfileCount, cnt.errorCount⟩
                (fetchReviewerReviews cancelFrom (profNum r.steamId) (profVan r.steamId) (c + 1)).2 := by
          conv_lhs => unfold fetchAllReviewerDataLoop
          simp [hcan', hemp']
        obtain ⟨s, p, h1, h2⟩ := ih
          (data ++ [⟨r.steamId,
            (fetchReviewerReviews cancelFrom (profNum r.steamId) (profVan r.steamId) (c + 1)).1⟩])
          ⟨cnt.processed + 1, cnt.successCount + 1, cnt.privateProfileCount, cnt.errorCount⟩
          (fetchReviewerReviews cancelFrom (profNum r.steamId) (profVan r.steamId) (c + 1)).2
        refine ⟨s + 1, p, ?_, ?_⟩
        · rw [hstep, h1]
          simp [Counters.mk.injEq]
          omega
        · rw [hstep, h2]
          simp
          omega

/-! ### Claims about pagination, discovery, collection and orchestration -/

/-- C6: starting at page 1, pagination stops by content exactly at the
first page yielding fewer than 10 reviews (zero included), at the hard
50-page ceiling when every page is full, and immediately when cancellation
is observed at a page poll. -/
theorem claim_C6 :
    (∀ (pages : PageOracle) (c k : Nat), 1 ≤ k → k ≤ maxPages →
        (∀ i, i < k - 1 → BigPage pages (1 + i)) → SmallPage pages k →
        (fetchAllReviewsFromProfile none pages c).2.1 = k)
    ∧ (∀ (pages : PageOracle) (c : Nat), (∀ i, i < maxPages → BigPage pages (1 + i)) →
        (fetchAllReviewsFromProfile none pages c).2.1 = maxPages)
    ∧ (∀ (pages : PageOracle) (c k : Nat), k ≤ c →
        (fetchAllReviewsFromProfile (some k) pages c).2.1 = 0) := by
  refine ⟨?_, ?_, ?_⟩
  · intro pages c k hk1 hk50 hbig hsmall
    obtain ⟨html, hpg, hlen⟩ := hsmall
    unfold fetchAllReviewsFromProfile
    have h50 : maxPages = 50 := rfl
    have hf : maxPages + 1 = (k - 1) + (maxPages + 2 - k) := by omega
    rw [hf]
    obtain ⟨rest, heq, _⟩ :=
      fetchAllLoop_skipBig pages (k - 1) (maxPages + 2 - k) 1 [] 0 c hbig (by omega)
    rw [heq]
    have e1 : 1 + (k - 1) = k := by omega
    rw [e1]
    obtain ⟨f, hfe⟩ : ∃ f, maxPages + 2 - k = f + 1 := ⟨maxPages + 1 - k, by omega⟩
    rw [hfe, fetchAllLoop_small pages f k ([] ++ rest) (0 + (k - 1)) (c + (k - 1)) html hpg hlen
      hk50]
    simp
    omega
  · intro pages c hbig
    unfold fetchAllReviewsFromProfile
    obtain ⟨rest, heq, _⟩ := fetchAllLoop_skipBig pages maxPages 1 1 [] 0 c hbig (by omega)
    rw [heq, fetchAllLoop_stop pages 1 (1 + maxPages) ([] ++ rest) (0 + maxPages)
      (c + maxPages) (by omega)]
    simp
  · intro pages c k hk
    unfold fetchAllReviewsFromProfile
    have hcan : isCancelled (some k) c = true := by simp [isCancelled, hk]
    conv_lhs => unfold fetchAllLoop
    simp [hcan, maxPages]

/-- C6 witness: page sizes 10, 10, 10, 7 fetch exactly 4 pages; fifty-plus
consecutive 10-review pages fetch exactly 50 pages. -/
theorem claim_C6_witness :
    (fetchAllReviewsFromProfile (none : Option Nat) pagesC6 0).2.1 = 4 ∧
    (fetchAllReviewsFromProfile (none : Option Nat) constPagesC6 0).2.1 = maxPages ∧
    (fetchAllReviewsFromProfile (some 0) pagesC6 0).2.1 = 0 := by
  have h10 : 10 ≤ (parseReviewsFromHTML page10).1.length := by decide
  have h7 : (parseReviewsFromHTML page7).1.length < 10 := by decide
  refine ⟨?_, ?_, ?_⟩
  · refine claim_C6.1 pagesC6 0 4 (by omega) (by decide) ?_ ⟨page7, rfl, h7⟩
    intro i hi
    refine ⟨page10, ?_, h10⟩
    interval_cases i <;> rfl
  · exact claim_C6.2.1 constPagesC6 0 (fun i hi => ⟨page10, rfl, h10⟩)
  · exact claim_C6.2.2 pagesC6 0 0 (Nat.le_refl 0)

/-- C4 counterexample: a run in which the subject's page 2 fetch is a
transport error (after a full page 1) nevertheless completes with a stored
result and no stored error — the error does not abort the run as Failed,
contradicting the claim. -/
theorem claim_C4_counterexample :
    envC4.subjectPages 2 = none ∧
    (startBackgroundAnalysis envC4).analysisError = none ∧
    (startBackgroundAnalysis envC4).analysisResult.isSome = true := by decide

/-- C4 (amended): a transport error during subject-review fetching or
reviewer discovery is caught inside the stage's pagination loop, which
keeps the partial accumulation (the erroring page or first batch
contributes nothing) instead of aborting; the run can only fail afterwards
through the zero-result checks.  A transport error during a per-reviewer
fetch never increments the collector's error counter (the reviewer is
merely excluded). -/
theorem claim_C4 :
    (∀ (pages : PageOracle) (c j : Nat), 1 ≤ j → j ≤ maxPages →
        (∀ i, i < j - 1 → BigPage pages (1 + i)) → pages j = none →
        ((fetchAllReviewsFromProfile none pages c).2.1 = j - 1
         ∧ ((fetchAllReviewsFromProfile none pages c).1 = [] ↔ j = 1)))
    ∧ (∀ (feed : FeedOracle) (maxP c : Nat), 0 < maxP → feed 1 = none →
        ((fetchGameReviewers none feed maxP c).1 = []
         ∧ (fetchGameReviewers none feed maxP c).2.1 = 1))
    ∧ (∀ (cancelFrom : Option Nat) (profNum profVan : ProfileOracle) (rs : List Reviewer)
        (c : Nat),
        (fetchAllReviewerData cancelFrom profNum profVan rs c).2.1.errorCount = 0) := by
  refine ⟨?_, ?_, ?_⟩
  · intro pages c j hj1 hj50 hbig herr
    unfold fetchAllReviewsFromProfile
    have h50 : maxPages = 50 := rfl
    have hf : maxPages + 1 = (j - 1) + (maxPages + 2 - j) := by omega
    rw [hf]
    obtain ⟨rest, heq, hC0, hne⟩ :=
      fetchAllLoop_skipBig pages (j - 1) (maxPages + 2 - j) 1 [] 0 c hbig (by omega)
    rw [heq]
    have e1 : 1 + (j - 1) = j := by omega
    rw [e1]
    obtain ⟨f, hfe⟩ : ∃ f, maxPages + 2 - j = f + 1 := ⟨maxPages + 1 - j, by omega⟩
    rw [hfe, fetchAllLoop_err pages f j ([] ++ rest) (0 + (j - 1)) (c + (j - 1)) herr hj50]
    refine ⟨by simp, ?_⟩
    simp only [List.nil_append]
    constructor
    · intro hrest
      by_contra hj
      exact hne (by omega) hrest
    · intro hj
      exact hC0 (by omega)
  · intro feed maxP c h0 hfeed
    have hstep : fetchGameReviewersLoop none feed maxP (maxP + 1) [] 0 0 c = ([], 1, c + 1) := by
      conv_lhs => unfold fetchGameReviewersLoop
      simp [h0, isCancelled, hfeed]
    unfold fetchGameReviewers
    rw [hstep]
    simp
  · intro cancelFrom profNum profVan rs c
    obtain ⟨s, p, h1, _⟩ :=
      fetchAllReviewerDataLoop_spec cancelFrom profNum profVan rs [] ⟨0, 0, 0, 0⟩ c
    unfold fetchAllReviewerData
    rw [h1]

/-- C4 witness: the amended statement at concrete inputs — a transport
error on the subject's page 2 leaves one fetched page and a nonempty
accumulation; an erroring first discovery batch yields the empty reviewer
list after exactly one request; the collector's error counter is 0. -/
theorem claim_C4_witness :
    ((fetchAllReviewsFromProfile (none : Option Nat) subjPagesC4 0).2.1 = 1
      ∧ ¬((fetchAllReviewsFromProfile (none : Option Nat) subjPagesC4 0).1 = []))
    ∧ (fetchGameReviewers (none : Option Nat) (fun _ => none) 5 0).2.1 = 1
    ∧ (fetchAllReviewerData (none : Option Nat) profC4 profC4 [] 0).2.1.errorCount = 0 := by
  have h10 : 10 ≤ (parseReviewsFromHTML page10).1.length := by decide
  have h := claim_C4.1 subjPagesC4 0 2 (by omega) (by decide)
    (fun i hi => ⟨page10, by interval_cases i <;> rfl, h10⟩) rfl
  refine ⟨⟨?_, ?_⟩, ?_, ?_⟩
  · simpa using h.1
  · intro hempty
    have := h.2.mp hempty
    omega
  · exact (claim_C4.2.1 (fun _ => none) 5 0 (by omega) rfl).2
  · exact claim_C4.2.2 none profC4 profC4 [] 0

/-- C3 is the claim the code violates (code bug): cancellation requested
before the first subject-page fetch makes `fetchWithRetry` throw inside the
pagination loop, the subject accumulation stays empty, and
`fetchUserReviews` throws its zero-result message, which
`startBackgroundAnalysis` stores into the error field — contradicting the
source's own comments that cancellation must never set the error. -/
theorem claim_C3 :
    envC3.cancelFrom = some 0 ∧
    startBackgroundAnalysis envC3 = ⟨none, some couldNotFetchMsg⟩ := by decide

/-- C5 counterexample: a reviewer whose numeric-id form yields an empty
(but successfully fetched) result is returned as empty without the
vanity-name form ever being attempted, although the vanity form would have
yielded a review — contradicting "if the first yields nothing usable, the
second is attempted". -/
theorem claim_C5_counterexample :
    (fetchAllReviewsFromProfile (none : Option Nat) numOrC5 0).1 = [] ∧
    (fetchAllReviewsFromProfile (none : Option Nat) vanOrC5 0).1 = [⟨("301"), true⟩] ∧
    (fetchReviewerReviews (none : Option Nat) numOrC5 vanOrC5 0).1 = [] := by decide

/-- C5 (amended): the numeric-id form is attempted first and its result is
always returned as-is — the vanity-name fallback only triggers if the first
attempt raises, which the per-profile fetcher never does (it catches every
page error internally and returns the partial accumulation), so the result
never depends on the vanity oracle and an empty first result is final; no
exception propagates past a reviewer's processing. -/
theorem claim_C5 :
    ∀ (cancelFrom : Option Nat) (numericPages vanityPages vanityPages' : PageOracle) (c : Nat),
      fetchReviewerReviews cancelFrom numericPages vanityPages c
        = fetchReviewerReviews cancelFrom numericPages vanityPages' c
      ∧ (fetchReviewerReviews cancelFrom numericPages vanityPages c).1
          = (fetchAllReviewsFromProfile cancelFrom numericPages c).1 :=
  fun _ _ _ _ _ => ⟨rfl, rfl⟩

/-- C7: discovery returns at most `maxProfiles` identities (the final batch
is truncated by the slice), and with the feed serving full 100-entry
continuing batches up to request `k - 1`, the loop issues exactly `k`
requests when batch `k` is a stopping batch — in particular a batch with
fewer than 100 entries stops discovery even when `maxProfiles` is not yet
reached. -/
theorem claim_C7 :
    (∀ (cancelFrom : Option Nat) (feed : FeedOracle) (maxP c : Nat),
        (fetchGameReviewers cancelFrom feed maxP c).1.length ≤ maxP)
    ∧ (∀ (feed : FeedOracle) (maxP c k : Nat), 1 ≤ k →
        (∀ i, 1 ≤ i → i < k → ContBatch feed maxP i) → StopBatch feed maxP k →
        100 * (k - 1) < maxP →
        (fetchGameReviewers none feed maxP c).2.1 = k) := by
  constructor
  · intro cancelFrom feed maxP c
    unfold fetchGameReviewers
    simp [List.length_take]
  · intro feed maxP c k hk hcont hstop hlt
    have hrun := fetchGameReviewersLoop_run feed maxP (k - 1) (maxP + 1) [] 0 c
      (fun i h1 h2 => hcont i (by omega) (by omega))
      (by
        have e : 0 + (k - 1) + 1 = k := by omega
        rw [e]
        exact hstop)
      (by
        have e : 0 + (k - 1) = k - 1 := by omega
        rw [e]
        exact hlt)
      (by omega)
    have e0 : (100 : Nat) * 0 = 0 := by ring
    rw [e0] at hrun
    unfold fetchGameReviewers
    simp only [hrun]
    omega

/-- C7 witness: a successful 2-entry first batch (fewer than 100) with a
truthy cursor stops discovery after exactly one request although
`maxProfiles = 300` is far from reached, and the result respects the
bound. -/
theorem claim_C7_witness :
    ((fetchGameReviewers (none : Option Nat) feedC7 300 0).2.1 = 1)
    ∧ ((fetchGameReviewers (none : Option Nat) feedC7 300 0).1.length ≤ 300) := by
  constructor
  · refine claim_C7.2 feedC7 300 0 1 (by omega) (fun i h1 h2 => absurd h2 (by omega)) ?_
      (by decide)
    exact Or.inr ⟨_, rfl, Or.inr (Or.inr (Or.inr (Or.inl (by decide))))⟩
  · exact claim_C7.1 none feedC7 300 0

/-- C10: `fetchReviewerReviews` is total and its result never depends on
the vanity oracle; in the collector every processed reviewer lands in
exactly one of the success or private/empty buckets, the record list length
equals the success count, and the errored counter can never be incremented
by a reviewer fetch. -/
theorem claim_C10 :
    ∀ (cancelFrom : Option Nat) (profNum profVan : ProfileOracle) (reviewers : List Reviewer)
      (c : Nat),
      ((fetchAllReviewerData cancelFrom profNum profVan reviewers c).2.1.errorCount = 0)
      ∧ ((fetchAllReviewerData cancelFrom profNum profVan reviewers c).2.1.processed
          = (fetchAllReviewerData cancelFrom profNum profVan reviewers c).2.1.successCount
            + (fetchAllReviewerData cancelFrom profNum profVan reviewers c).2.1.privateProfileCount)
      ∧ ((fetchAllReviewerData cancelFrom profNum profVan reviewers c).1.length
          = (fetchAllReviewerData cancelFrom profNum profVan reviewers c).2.1.successCount)
      ∧ (∀ (num van van' : PageOracle) (c' : Nat),
          fetchReviewerReviews cancelFrom num van c'
            = fetchReviewerReviews cancelFrom num van' c') := by
  intro cancelFrom profNum profVan reviewers c
  obtain ⟨s, p, h1, h2⟩ :=
    fetchAllReviewerDataLoop_spec cancelFrom profNum profVan reviewers [] ⟨0, 0, 0, 0⟩ c
  unfold fetchAllReviewerData
  refine ⟨?_, ?_, ?_, fun num van van' c' => rfl⟩
  · rw [h1]
  · rw [h1]
    simp
  · rw [h2, h1]
    simp
